import Mathlib

/-!
Shallow embedding of the client-side session-state layer of the rag-video
repository (file `src/unnamed/part_000`, the `Home` component).  React state
is modelled as an explicit `AppState` record; each handler becomes a pure
function from the state (plus the outcome of its network call, when it makes
one) to the next state.  Asynchronous handlers are split at their suspension
point into a synchronous start phase and a resolution phase, mirroring how
the JavaScript closure captures values before `await` and applies functional
state updates afterwards.
-/

namespace RagVideo

/-- Role of a chat message, from the `Message` interface (`'user' | 'assistant'`). -/
inductive Role where
  | user
  | assistant
deriving DecidableEq, Repr

/-- A chat message: `interface Message { role; content }`. -/
structure Message where
  role : Role
  content : String
deriving DecidableEq, Repr

/-- One chat session: `interface ChatSession { id; uniqueId; title; messages }`.
`id` is the backend video id (the spec's `backendId`), `uniqueId` the
frontend session key (the spec's `sessionKey`). -/
structure ChatSession where
  id : String
  uniqueId : String
  title : String
  messages : List Message
deriving DecidableEq, Repr

/-- The React state of the `Home` component: `sessions`, `activeSessionId`,
the three text inputs, the `loading` busy flag and `statusText`. -/
structure AppState where
  sessions : List ChatSession
  activeSessionId : Option String
  urlInput : String
  titleInput : String
  questionInput : String
  loading : Bool
  statusText : String
deriving DecidableEq, Repr

/-- The initial component state: every `useState` initializer
(`[]`, `null`, `''`, `''`, `''`, `false`, `''`). -/
def initialState : AppState :=
  { sessions := [], activeSessionId := none, urlInput := "", titleInput := "",
    questionInput := "", loading := false, statusText := "" }

/-- The derived active chat:
`sessions.find(s => s.uniqueId === activeSessionId)`. -/
def activeChat (st : AppState) : Option ChatSession :=
  st.sessions.find? fun s => st.activeSessionId == some s.uniqueId

/-- The store mutation `addMessageToSession(uniqueId, msg)`:
`prev.map(s => s.uniqueId === uniqueId ? { ...s, messages: [...s.messages, msg] } : s)`. -/
def addMessageToSession (uniqueId : String) (msg : Message)
    (sessions : List ChatSession) : List ChatSession :=
  sessions.map fun s =>
    if s.uniqueId = uniqueId then { s with messages := s.messages ++ [msg] } else s

/-- The `handleDelete` handler: removes the session with the given `uniqueId`
(`prev.filter(s => s.uniqueId !== uniqueId)`) and clears the active pointer
when it pointed at the removed session. -/
def handleDelete (uniqueId : String) (st : AppState) : AppState :=
  { st with
    sessions := st.sessions.filter fun s => s.uniqueId != uniqueId,
    activeSessionId :=
      if st.activeSessionId = some uniqueId then none else st.activeSessionId }

/-- One row of the `/list-videos` response, as the code reads it
(`v.url`, `v.description`). -/
structure VideoRecord where
  url : String
  description : String
deriving DecidableEq, Repr

/-- Shape of a `/list-videos` response body after `res.json()`:
either not an array, or an array of records. -/
inductive ListPayload where
  | notArray
  | arr (records : List VideoRecord)
deriving DecidableEq, Repr

/-- Outcome of the `fetch('/list-videos')` call: a thrown transport error,
a non-ok HTTP status, or a JSON payload. -/
inductive FetchOutcome where
  | transportError
  | httpError (statusText : String)
  | payload (body : ListPayload)
deriving DecidableEq, Repr

/-- The `fetchVideosFromDB` loader.  On a non-ok status the code logs and
returns early (state untouched); on a non-array payload or a thrown error it
sets `sessions` to `[]`; on an array it maps each row to a session with
`id = uniqueId = v.url`, `title = v.description` and empty messages. -/
def fetchVideosFromDB (st : AppState) (outcome : FetchOutcome) : AppState :=
  match outcome with
  | .httpError _ => st
  | .transportError => { st with sessions := [] }
  | .payload .notArray => { st with sessions := [] }
  | .payload (.arr records) =>
      { st with sessions := records.map fun v =>
          { id := v.url, uniqueId := v.url, title := v.description,
            messages := [] } }

/-- Outcome of the `fetch('/ingest-video')` call: a failure (non-ok status,
whose body text is thrown, or a transport error) carrying the error message,
or a parsed success body (`data.video_url`, `data.video_description`). -/
inductive IngestOutcome where
  | failure (errText : String)
  | success (videoUrl : String) (videoDescription : String)
deriving DecidableEq, Repr

/-- The generated fallback title used by `handleIngest`:
the template literal `Video ${sessions.length + 1}`. -/
def ingestPlaceholder (st : AppState) : String :=
  "Video " ++ toString (st.sessions.length + 1)

/-- Title of the session built on ingest success:
`data.video_description || titleInput || placeholder` (JavaScript `||`
treats the empty string as falsy). -/
def ingestTitle (st : AppState) (videoDescription : String) : String :=
  if videoDescription ≠ "" then videoDescription
  else if st.titleInput ≠ "" then st.titleInput
  else ingestPlaceholder st

/-- The `handleIngest` handler, as a function of the call's outcome.  Returns
the next state together with the optional `alert` text.  `if (!urlInput)
return` guards the whole body.  On success a new session is prepended, made
active, and the inputs and status are cleared; on failure the catch branch
alerts and the state keeps the `statusText` set before the call (it is never
reset there); `finally` clears `loading` in both branches. -/
def handleIngest (st : AppState) (outcome : IngestOutcome) :
    AppState × Option String :=
  if st.urlInput = "" then (st, none)
  else
    match outcome with
    | .failure errText =>
        ({ st with
            statusText := "Downloading and processing...",
            loading := false },
          some ("Error: " ++ errText))
    | .success videoUrl videoDescription =>
        let newSession : ChatSession :=
          { id := videoUrl, uniqueId := videoUrl,
            title := ingestTitle st videoDescription, messages := [] }
        ({ st with
            sessions := newSession :: st.sessions,
            activeSessionId := some videoUrl,
            urlInput := "", titleInput := "",
            statusText := "", loading := false }, none)

/-- Model of JavaScript `String.prototype.trim()` as used by
`questionInput.trim()`: removes whitespace characters from both ends of the
string, written structurally over the character list. -/
def jsTrim (s : String) : String :=
  ⟨(((s.data.dropWhile Char.isWhitespace).reverse.dropWhile
      Char.isWhitespace).reverse)⟩

/-- The values `handleSend` captures in its closure before the `await`:
`activeChat.uniqueId`, `activeChat.id` and `currentQ = questionInput`. -/
structure SendCapture where
  capturedUniqueId : String
  capturedVideoId : String
  question : String
deriving DecidableEq, Repr

/-- The synchronous part of `handleSend`, up to the `fetch`.  Returns `none`
when the guard `if (!questionInput.trim() || !activeChat) return` fires;
otherwise clears the input, appends the user message to the captured
session, sets `loading`, and yields the captured snapshot. -/
def handleSendStart (st : AppState) : Option (AppState × SendCapture) :=
  if jsTrim st.questionInput = "" then none
  else
    match activeChat st with
    | none => none
    | some chat =>
        some
          ({ st with
              questionInput := "",
              sessions := addMessageToSession chat.uniqueId
                { role := Role.user, content := st.questionInput } st.sessions,
              loading := true },
            { capturedUniqueId := chat.uniqueId, capturedVideoId := chat.id,
              question := st.questionInput })

/-- Body of the `/query` request built by `handleSend`:
`{ question: currentQ, video_url: activeChat.id, top_k: 8 }`. -/
structure QueryRequest where
  question : String
  videoUrl : String
  topK : Nat
deriving DecidableEq, Repr

/-- The request `handleSend` issues from its captured snapshot. -/
def handleSendRequest (c : SendCapture) : QueryRequest :=
  { question := c.question, videoUrl := c.capturedVideoId, topK := 8 }

/-- Outcome of the `fetch('/query')` call: failure (non-ok status or
transport error) or a parsed success body carrying `data.response`. -/
inductive QueryOutcome where
  | failure
  | success (response : String)
deriving DecidableEq, Repr

/-- The assistant message `handleSend` appends on resolution: the response
content on success, the fixed error placeholder in the catch branch. -/
def replyMessage : QueryOutcome → Message
  | .success response => { role := Role.assistant, content := response }
  | .failure =>
      { role := Role.assistant, content := "Error: Failed to get response." }

/-- The resolution part of `handleSend`, applied to whatever state holds when
the call settles: appends the reply to the captured `uniqueId` (both the
success path and the catch branch call `addMessageToSession` with
`activeChat.uniqueId` from the closure) and clears `loading`. -/
def handleSendResolve (c : SendCapture) (outcome : QueryOutcome)
    (st : AppState) : AppState :=
  { st with
    sessions := addMessageToSession c.capturedUniqueId (replyMessage outcome)
      st.sessions,
    loading := false }

/-- The keys of the live sessions, in order. -/
def sessionKeys (sessions : List ChatSession) : List String :=
  sessions.map fun s => s.uniqueId

/-- The three store mutations of the spec's SessionStore, each written
exactly as the corresponding source expression: `hydrate` is the mapping in
`fetchVideosFromDB`, `upsertNew` is `[newSession, ...sessions]` in
`handleIngest`, `remove` is the filter in `handleDelete`. -/
inductive StoreOp where
  | hydrate (records : List VideoRecord)
  | upsertNew (session : ChatSession)
  | remove (key : String)
deriving DecidableEq, Repr

/-- Applies one store mutation to the session collection. -/
def applyOp (sessions : List ChatSession) : StoreOp → List ChatSession
  | .hydrate records => records.map fun v =>
      { id := v.url, uniqueId := v.url, title := v.description, messages := [] }
  | .upsertNew s => s :: sessions
  | .remove key => sessions.filter fun s => s.uniqueId != key

/-- Runs a sequence of store mutations left to right. -/
def runOps (sessions : List ChatSession) (ops : List StoreOp) :
    List ChatSession :=
  ops.foldl applyOp sessions

/-- Freshness side condition of one mutation: a hydrate list must carry
pairwise-distinct urls, an upsert's key must not already be live. -/
def opOk (sessions : List ChatSession) : StoreOp → Bool
  | .hydrate records => decide (records.map VideoRecord.url).Nodup
  | .upsertNew s => decide (s.uniqueId ∉ sessionKeys sessions)
  | .remove _ => true

/-- Freshness of every mutation of a sequence, each checked in the state
reached when it runs. -/
def opsOk : List ChatSession → List StoreOp → Bool
  | _, [] => true
  | sessions, op :: rest => opOk sessions op && opsOk (applyOp sessions op) rest

/-- A concrete session used to instantiate the theorems below. -/
def exampleSession : ChatSession :=
  { id := "v1", uniqueId := "v1", title := "Cooking Tutorial", messages := [] }

/-- A concrete state with one session, active, and a pending question. -/
def exampleState : AppState :=
  { sessions := [exampleSession], activeSessionId := some "v1", urlInput := "",
    titleInput := "", questionInput := "What is this about?", loading := false,
    statusText := "" }

/-- A concrete state as it may look when a pending query resolves: a second
session `v2` has been created and made active while `v1`'s request was in
flight. -/
def exampleResolveState : AppState :=
  { sessions :=
      [{ id := "v2", uniqueId := "v2", title := "B", messages := [] },
       { id := "v1", uniqueId := "v1", title := "Cooking Tutorial",
         messages := [{ role := Role.user, content := "What is this about?" }] }],
    activeSessionId := some "v2", urlInput := "", titleInput := "",
    questionInput := "", loading := true, statusText := "" }

/-- A concrete state about to submit an ingest request. -/
def exampleIngestState : AppState :=
  { sessions := [exampleSession], activeSessionId := some "v1",
    urlInput := "https://yt/u2", titleInput := "", questionInput := "",
    loading := false, statusText := "" }

/-- A concrete state whose pending question has surrounding whitespace. -/
def exampleSpacedState : AppState :=
  { sessions := [exampleSession], activeSessionId := some "v1", urlInput := "",
    titleInput := "", questionInput := "  spaced question  ", loading := false,
    statusText := "" }

/-- Updating a session's message list never changes its key. -/
theorem uniqueId_of_update (s : ChatSession) (k : String) (m : Message) :
    ((if s.uniqueId = k then { s with messages := s.messages ++ [m] } else s) :
      ChatSession).uniqueId = s.uniqueId := by
  split <;> rfl

/-- `addMessageToSession` with a key no live session carries is the identity
on the session collection. -/
theorem addMessageToSession_eq_self (k : String) (m : Message)
    (ss : List ChatSession) (h : ∀ s ∈ ss, s.uniqueId ≠ k) :
    addMessageToSession k m ss = ss := by
  unfold addMessageToSession
  conv_rhs => rw [← List.map_id ss]
  exact List.map_congr_left fun s hs => by rw [if_neg (h s hs)]; rfl

/-- After `handleDelete k`, no live session carries the key `k`. -/
theorem handleDelete_not_key (k : String) (st : AppState) :
    ∀ s ∈ (handleDelete k st).sessions, s.uniqueId ≠ k := by
  intro s hs
  simp only [handleDelete, List.mem_filter, bne_iff_ne] at hs
  exact hs.2

/-- Looking up a key in the collection after `addMessageToSession` finds the
same session the lookup found before, with the update applied to it. -/
theorem find?_addMessageToSession (aid : Option String) (k : String)
    (m : Message) (ss : List ChatSession) :
    (addMessageToSession k m ss).find? (fun s => aid == some s.uniqueId) =
      ((ss.find? fun s => aid == some s.uniqueId).map
        fun s => if s.uniqueId = k then { s with messages := s.messages ++ [m] }
          else s) := by
  have hpred : ((fun s => aid == some s.uniqueId) ∘ fun s : ChatSession =>
      if s.uniqueId = k then { s with messages := s.messages ++ [m] } else s) =
      fun s : ChatSession => aid == some s.uniqueId := by
    funext s
    simp only [Function.comp]
    rw [uniqueId_of_update]
  unfold addMessageToSession
  rw [List.find?_map, hpred]

/-- The sessions produced by a hydrate mutation have the input urls as keys,
in order. -/
theorem sessionKeys_hydrate (records : List VideoRecord)
    (ss : List ChatSession) :
    sessionKeys (applyOp ss (.hydrate records)) = records.map VideoRecord.url := by
  unfold sessionKeys applyOp
  rw [List.map_map]
  exact List.map_congr_left fun v _ => rfl

/-- A remove mutation keeps a sublist of the previous keys. -/
theorem sessionKeys_remove_sublist (ss : List ChatSession) (k : String) :
    (sessionKeys (applyOp ss (.remove k))).Sublist (sessionKeys ss) := by
  unfold sessionKeys applyOp
  exact (List.filter_sublist ss).map _

/-- Running a sequence of store mutations whose freshness side conditions all
hold preserves pairwise distinctness of the session keys. -/
theorem runOps_nodup :
    ∀ (ops : List StoreOp) (ss : List ChatSession),
      (sessionKeys ss).Nodup → opsOk ss ops = true →
      (sessionKeys (runOps ss ops)).Nodup
  | [], _, hnd, _ => hnd
  | op :: rest, ss, hnd, hok => by
      unfold opsOk at hok
      rw [Bool.and_eq_true] at hok
      have hstep : (sessionKeys (applyOp ss op)).Nodup := by
        cases op with
        | hydrate records =>
            rw [sessionKeys_hydrate]
            exact of_decide_eq_true hok.1
        | upsertNew s =>
            have hkeys : sessionKeys (applyOp ss (.upsertNew s)) =
                s.uniqueId :: sessionKeys ss := rfl
            rw [hkeys, List.nodup_cons]
            exact ⟨of_decide_eq_true hok.1, hnd⟩
        | remove k =>
            exact (sessionKeys_remove_sublist ss k).nodup hnd
      exact runOps_nodup rest (applyOp ss op) hstep hok.2

/-- Claim C1: the assistant reply (or error placeholder) appended when the
query settles goes to the session whose key was captured at submission time
(the key of the then-active session), and in whatever collection holds at
resolution time every session with a different key keeps its history
unchanged; the resolution never consults the live active pointer. -/
theorem claim_C1 (st st1 : AppState) (c : SendCapture)
    (h : handleSendStart st = some (st1, c)) :
    (∃ chat, activeChat st = some chat ∧ c.capturedUniqueId = chat.uniqueId ∧
      c.capturedVideoId = chat.id) ∧
    ∀ (st2 : AppState) (outcome : QueryOutcome),
      (handleSendResolve c outcome st2).activeSessionId = st2.activeSessionId ∧
      (handleSendResolve c outcome st2).sessions =
        st2.sessions.map fun s =>
          if s.uniqueId = c.capturedUniqueId then
            { s with messages := s.messages ++ [replyMessage outcome] }
          else s := by
  constructor
  · unfold handleSendStart at h
    by_cases hq : jsTrim st.questionInput = ""
    · rw [if_pos hq] at h
      exact Option.noConfusion h
    · rw [if_neg hq] at h
      cases hact : activeChat st with
      | none =>
          rw [hact] at h
          exact Option.noConfusion h
      | some chat =>
          rw [hact] at h
          simp only [Option.some.injEq, Prod.mk.injEq] at h
          exact ⟨chat, rfl, by rw [← h.2], by rw [← h.2]⟩
  · intro st2 outcome
    exact ⟨rfl, rfl⟩

/-- Claim C1 witness: with the captured key `v1`, resolving against a state
where `v2` was created and made active appends the answer to `v1` only. -/
theorem claim_C1_witness :
    (∃ chat, activeChat exampleState = some chat ∧
      ("v1" : String) = chat.uniqueId ∧ ("v1" : String) = chat.id) ∧
    (handleSendResolve
        { capturedUniqueId := "v1", capturedVideoId := "v1",
          question := "What is this about?" }
        (QueryOutcome.success "An answer.") exampleResolveState).sessions =
      [{ id := "v2", uniqueId := "v2", title := "B", messages := [] },
       { id := "v1", uniqueId := "v1", title := "Cooking Tutorial",
         messages := [{ role := Role.user, content := "What is this about?" },
                      { role := Role.assistant, content := "An answer." }] }] := by
  have h := claim_C1 exampleState
    { exampleState with
        questionInput := "",
        sessions := addMessageToSession "v1"
          { role := Role.user, content := "What is this about?" }
          exampleState.sessions,
        loading := true }
    { capturedUniqueId := "v1", capturedVideoId := "v1",
      question := "What is this about?" }
    (by decide)
  refine ⟨h.1, ?_⟩
  rw [(h.2 exampleResolveState (QueryOutcome.success "An answer.")).2]
  decide

/-- Claim C2: `addMessageToSession` with a key that matches no live session
leaves the collection exactly unchanged, also under repeated calls, and in
particular appending to a just-deleted key is a silent no-op. -/
theorem claim_C2 (k : String) (m : Message) (sessions : List ChatSession)
    (h : ∀ s ∈ sessions, s.uniqueId ≠ k) :
    addMessageToSession k m sessions = sessions ∧
    addMessageToSession k m (addMessageToSession k m sessions) = sessions ∧
    ∀ (st : AppState) (m2 : Message),
      addMessageToSession k m2 (handleDelete k st).sessions =
        (handleDelete k st).sessions := by
  refine ⟨addMessageToSession_eq_self k m sessions h, ?_, ?_⟩
  · rw [addMessageToSession_eq_self k m sessions h,
      addMessageToSession_eq_self k m sessions h]
  · intro st m2
    exact addMessageToSession_eq_self k m2 _ (handleDelete_not_key k st)

/-- Claim C2 witness: appending to the missing key `gone` leaves a concrete
one-session collection unchanged. -/
theorem claim_C2_witness :
    addMessageToSession "gone" { role := Role.user, content := "hi" }
      [exampleSession] = [exampleSession] :=
  (claim_C2 "gone" { role := Role.user, content := "hi" } [exampleSession]
    (by decide)).1

/-- Claim C3 counterexample: two successful ingests of the same url from the
empty store both insert, so the collection ends with two sessions carrying
the same key — `handleIngest` has no duplicate-key check and never fails
with a DuplicateKey condition. -/
theorem claim_C3_counterexample :
    let st0 : AppState := { initialState with urlInput := "u" }
    let st1 := (handleIngest st0 (IngestOutcome.success "u" "d")).1
    let st2 :=
      (handleIngest { st1 with urlInput := "u" } (IngestOutcome.success "u" "d")).1
    st2.sessions.length = 2 ∧ ¬ (sessionKeys st2.sessions).Nodup := by
  decide

/-- Claim C3 (amended): the insert performed by `handleIngest` is an
unconditional prepend; key distinctness is preserved by every
hydrate/upsertNew/remove sequence from the empty store provided each
hydrate's urls are pairwise distinct and each inserted key is not already
live — and the three store mutations are exactly the ones the handlers
perform. -/
theorem claim_C3_amended :
    (∀ ops : List StoreOp, opsOk [] ops = true →
      (sessionKeys (runOps [] ops)).Nodup) ∧
    (∀ (st : AppState) (u d : String), st.urlInput ≠ "" →
      ((handleIngest st (.success u d)).1).sessions =
        applyOp st.sessions (.upsertNew
          { id := u, uniqueId := u, title := ingestTitle st d, messages := [] })) ∧
    (∀ (st : AppState) (k : String),
      (handleDelete k st).sessions = applyOp st.sessions (.remove k)) ∧
    (∀ (st : AppState) (records : List VideoRecord),
      (fetchVideosFromDB st (.payload (.arr records))).sessions =
        applyOp st.sessions (.hydrate records)) := by
  refine ⟨fun ops h => runOps_nodup ops [] List.nodup_nil h, ?_,
    fun st k => rfl, fun st records => rfl⟩
  intro st u d hurl
  simp [handleIngest, hurl, applyOp]

/-- Claim C3 witness: a concrete hydrate/upsertNew/remove sequence with
fresh keys ends with pairwise-distinct keys. -/
theorem claim_C3_witness :
    (sessionKeys (runOps []
      [StoreOp.hydrate [{ url := "u1", description := "d1" },
        { url := "u2", description := "d2" }],
       StoreOp.upsertNew exampleSession,
       StoreOp.remove "u1"])).Nodup :=
  claim_C3_amended.1 _ (by decide)

/-- Claim C4: with an active session and a question that is non-empty after
trimming, submission appends exactly the one user message synchronously, and
a successful resolution leaves the session's history grown by exactly the
user message followed by the assistant message carrying the response. -/
theorem claim_C4 (st : AppState) (chat : ChatSession) (response : String)
    (hact : activeChat st = some chat) (hq : jsTrim st.questionInput ≠ "") :
    ∃ st1 c, handleSendStart st = some (st1, c) ∧
      activeChat st1 = some { chat with
        messages := chat.messages ++
          [{ role := Role.user, content := st.questionInput }] } ∧
      activeChat (handleSendResolve c (.success response) st1) =
        some { chat with
          messages := chat.messages ++
            [{ role := Role.user, content := st.questionInput },
             { role := Role.assistant, content := response }] } := by
  refine ⟨{ st with
      questionInput := "",
      sessions := addMessageToSession chat.uniqueId
        { role := Role.user, content := st.questionInput } st.sessions,
      loading := true },
    { capturedUniqueId := chat.uniqueId, capturedVideoId := chat.id,
      question := st.questionInput }, ?_, ?_, ?_⟩
  · unfold handleSendStart
    rw [if_neg hq, hact]
  · show (addMessageToSession chat.uniqueId
        { role := Role.user, content := st.questionInput } st.sessions).find?
        (fun s => st.activeSessionId == some s.uniqueId) = _
    rw [find?_addMessageToSession]
    unfold activeChat at hact
    rw [hact]
    simp
  · show (addMessageToSession chat.uniqueId
        (replyMessage (.success response))
        (addMessageToSession chat.uniqueId
          { role := Role.user, content := st.questionInput } st.sessions)).find?
        (fun s => st.activeSessionId == some s.uniqueId) = _
    rw [find?_addMessageToSession, find?_addMessageToSession]
    unfold activeChat at hact
    rw [hact]
    simp [replyMessage]

/-- Claim C4 witness: the concrete scenario of the spec, question
`What is this about?` answered by `A cooking tutorial.`. -/
theorem claim_C4_witness :
    ∃ st1 c, handleSendStart exampleState = some (st1, c) ∧
      activeChat st1 = some
        { id := "v1", uniqueId := "v1", title := "Cooking Tutorial",
          messages := [{ role := Role.user, content := "What is this about?" }] } ∧
      activeChat (handleSendResolve c
          (QueryOutcome.success "A cooking tutorial.") st1) = some
        { id := "v1", uniqueId := "v1", title := "Cooking Tutorial",
          messages := [{ role := Role.user, content := "What is this about?" },
            { role := Role.assistant, content := "A cooking tutorial." }] } :=
  claim_C4 exampleState exampleSession "A cooking tutorial." (by decide)
    (by decide)

/-- Claim C5: when the ingest call fails, the session collection and the
active pointer are exactly as before, the alert carries the error text, and
the busy flag is cleared. -/
theorem claim_C5 (st : AppState) (errText : String) (h : st.urlInput ≠ "") :
    ((handleIngest st (.failure errText)).1).sessions = st.sessions ∧
    ((handleIngest st (.failure errText)).1).activeSessionId =
      st.activeSessionId ∧
    ((handleIngest st (.failure errText)).1).loading = false ∧
    (handleIngest st (.failure errText)).2 = some ("Error: " ++ errText) := by
  simp [handleIngest, h]

/-- Claim C5 witness: a concrete failing ingest leaves the collection and
pointer unchanged and alerts with the error text. -/
theorem claim_C5_witness :
    ((handleIngest exampleIngestState (IngestOutcome.failure "boom")).1).sessions
        = exampleIngestState.sessions ∧
    ((handleIngest exampleIngestState
        (IngestOutcome.failure "boom")).1).activeSessionId
        = exampleIngestState.activeSessionId ∧
    ((handleIngest exampleIngestState
        (IngestOutcome.failure "boom")).1).loading = false ∧
    (handleIngest exampleIngestState (IngestOutcome.failure "boom")).2 =
      some ("Error: " ++ "boom") :=
  claim_C5 exampleIngestState "boom" (by decide)

/-- Claim C6: at startup, a transport failure, a non-ok HTTP status, or a
non-array payload all leave the hydrated session collection empty; the
loader is a total function, so no outcome makes startup fail. -/
theorem claim_C6 (outcome : FetchOutcome)
    (hfail : outcome = FetchOutcome.transportError ∨
      (∃ t, outcome = FetchOutcome.httpError t) ∨
      outcome = FetchOutcome.payload ListPayload.notArray) :
    (fetchVideosFromDB initialState outcome).sessions = [] := by
  rcases hfail with h | ⟨t, h⟩ | h <;> subst h <;> rfl

/-- Claim C6 witness: a transport failure at startup yields zero sessions. -/
theorem claim_C6_witness :
    (fetchVideosFromDB initialState FetchOutcome.transportError).sessions = [] :=
  claim_C6 FetchOutcome.transportError (Or.inl rfl)

/-- Claim C7: hydrating from a well-formed array replaces the collection with
one session per record, in input order, with `id = uniqueId = url`,
`title = description`, empty history. -/
theorem claim_C7 (st : AppState) (records : List VideoRecord) :
    (fetchVideosFromDB st (.payload (.arr records))).sessions =
      records.map (fun v =>
        { id := v.url, uniqueId := v.url, title := v.description,
          messages := [] }) ∧
    (fetchVideosFromDB st (.payload (.arr records))).sessions.length =
      records.length :=
  ⟨rfl, by simp [fetchVideosFromDB]⟩

/-- Claim C8: a successful ingest inserts the new session at the front of the
collection, leaving the previous sessions behind it in their previous
order. -/
theorem claim_C8 (st : AppState) (videoUrl videoDescription : String)
    (hurl : st.urlInput ≠ "")
    (_hfresh : ∀ s ∈ st.sessions, s.uniqueId ≠ videoUrl) :
    ((handleIngest st (.success videoUrl videoDescription)).1).sessions =
      { id := videoUrl, uniqueId := videoUrl,
        title := ingestTitle st videoDescription, messages := [] } ::
        st.sessions := by
  simp [handleIngest, hurl]

/-- Claim C8 witness: a concrete successful ingest prepends the new session
to the existing collection. -/
theorem claim_C8_witness :
    ((handleIngest exampleIngestState
        (IngestOutcome.success "v2" "Desc")).1).sessions =
      { id := "v2", uniqueId := "v2",
        title := ingestTitle exampleIngestState "Desc", messages := [] } ::
        exampleIngestState.sessions :=
  claim_C8 exampleIngestState "v2" "Desc" (by decide) (by decide)

/-- Claim C9: after `handleDelete k` no session with key `k` remains; if `k`
was the active key the pointer is cleared, otherwise the pointer is
unchanged. -/
theorem claim_C9 (st : AppState) (k : String) :
    (∀ s ∈ (handleDelete k st).sessions, s.uniqueId ≠ k) ∧
    (st.activeSessionId = some k →
      (handleDelete k st).activeSessionId = none) ∧
    (st.activeSessionId ≠ some k →
      (handleDelete k st).activeSessionId = st.activeSessionId) := by
  refine ⟨handleDelete_not_key k st, ?_, ?_⟩ <;> intro h <;>
    simp [handleDelete, h]

/-- Claim C9 witness: deleting the active session `v1` clears the pointer. -/
theorem claim_C9_witness :
    (handleDelete "v1" exampleState).activeSessionId = none :=
  (claim_C9 exampleState "v1").2.1 rfl

/-- Claim C10: the user message and the outgoing request carry the raw input
text, untrimmed; trimming only gates the non-emptiness check. -/
theorem claim_C10 (st : AppState) (chat : ChatSession)
    (hact : activeChat st = some chat) (hq : jsTrim st.questionInput ≠ "") :
    ∃ st1 c, handleSendStart st = some (st1, c) ∧
      c.question = st.questionInput ∧
      handleSendRequest c =
        { question := st.questionInput, videoUrl := chat.id, topK := 8 } ∧
      activeChat st1 = some { chat with
        messages := chat.messages ++
          [{ role := Role.user, content := st.questionInput }] } := by
  refine ⟨{ st with
      questionInput := "",
      sessions := addMessageToSession chat.uniqueId
        { role := Role.user, content := st.questionInput } st.sessions,
      loading := true },
    { capturedUniqueId := chat.uniqueId, capturedVideoId := chat.id,
      question := st.questionInput }, ?_, rfl, rfl, ?_⟩
  · unfold handleSendStart
    rw [if_neg hq, hact]
  · show (addMessageToSession chat.uniqueId
        { role := Role.user, content := st.questionInput } st.sessions).find?
        (fun s => st.activeSessionId == some s.uniqueId) = _
    rw [find?_addMessageToSession]
    unfold activeChat at hact
    rw [hact]
    simp

/-- Claim C10 witness: a question with surrounding whitespace is stored and
sent with the whitespace intact. -/
theorem claim_C10_witness :
    ∃ st1 c, handleSendStart exampleSpacedState = some (st1, c) ∧
      c.question = "  spaced question  " ∧
      handleSendRequest c =
        { question := "  spaced question  ", videoUrl := "v1", topK := 8 } ∧
      activeChat st1 = some
        { id := "v1", uniqueId := "v1", title := "Cooking Tutorial",
          messages := [{ role := Role.user, content := "  spaced question  " }] } :=
  claim_C10 exampleSpacedState exampleSession (by decide) (by decide)

end RagVideo
